import Mathlib

/-!
Verification development for the YFITG-Recon repository.

The repository ships three components: a Next.js consent portal (TypeScript,
under src/portal and the unnamed route files), an on-device Python scan
orchestrator (referenced by the setup scripts and documentation but whose
Python sources are not in the repository snapshot), and a FastAPI collector
(likewise absent).  The portal route handlers are embedded directly from
their TypeScript source; the device-side orchestrator components are
modelled from the specification, as marked on each such definition.
-/

namespace YfitgRecon

/-- A JSON value, as handled by the portal's Next.js route handlers.
JavaScript `undefined` for a missing object field is represented by lookup
returning `Json.null` (both are falsy and neither carries data here). -/
inductive Json where
  | null : Json
  | str : String → Json
  | bool : Bool → Json
  | num : Int → Json
  | arr : List Json → Json
  | obj : List (String × Json) → Json

/-- JavaScript truthiness of a JSON value: `null`/`undefined`, `false`,
`0` and the empty string are falsy; arrays and objects (even empty) are
truthy. -/
def Json.truthy : Json → Bool
  | .null => false
  | .str s => !(s == "")
  | .bool b => b
  | .num n => !(n == 0)
  | .arr _ => true
  | .obj _ => true

/-- Field access `body.k` on a parsed JSON body: the field's value when the
body is an object carrying it, otherwise `null` (undefined). -/
def Json.getField : Json → String → Json
  | .obj fields, k =>
    match fields.lookup k with
    | some v => v
    | none => .null
  | _, _ => .null

/-- Whether a JSON object carries the given key. -/
def Json.hasKey : Json → String → Bool
  | .obj fields, k => (fields.lookup k).isSome
  | _, _ => false

/-- The keys of a JSON object, in order. -/
def Json.keys : Json → List String
  | .obj fields => fields.map Prod.fst
  | _ => []

/-- JavaScript template-literal coercion of a value to a string, as in the
topic string of the publishStart route.  Faithful for strings, booleans,
numbers and null; the array/object renderings abstract the JS `toString`. -/
def Json.jsStr : Json → String
  | .null => "null"
  | .str s => s
  | .bool b => if b then "true" else "false"
  | .num n => toString n
  | .arr _ => "[array]"
  | .obj _ => "[object Object]"

/-- An HTTP response produced with `NextResponse.json` (status 200 when no
status option is given). -/
structure HttpResponse where
  status : Nat
  body : Json

/-- Everything observable about one invocation of the publishStart route
handler: the HTTP response, whether `getMqttClient()` was ever invoked
(i.e. whether the handler tried to reach the MQTT broker), and the list of
(topic, payload) messages it published. -/
structure PublishStartOutcome where
  response : HttpResponse
  mqttContacted : Bool
  published : List (String × Json)

/-- The validation error message of the publishStart route. -/
def publishStartErrorMsg : String := "Missing required fields: device_id, consent_id, scope"

/-- The publishStart route handler (src/unnamed/part_000, `POST`), embedded
over a parsed JSON `body`.  `now` is the ISO timestamp taken at payload
construction; `connectOk` abstracts whether `getMqttClient()` plus the
connection wait succeeded, and `publishOk` whether `client.publish`
succeeded.  Validation runs before any MQTT client is obtained. -/
def publishStartPOST (body : Json) (now : String) (connectOk publishOk : Bool) :
    PublishStartOutcome :=
  if !(body.getField "device_id").truthy || !(body.getField "consent_id").truthy
      || !(body.getField "scope").truthy then
    { response := { status := 400, body := .obj [("error", .str publishStartErrorMsg)] }
      mqttContacted := false
      published := [] }
  else if !connectOk then
    { response := { status := 500, body := .obj [("error", .str "MQTT connection timeout")] }
      mqttContacted := true
      published := [] }
  else
    let payload : Json := .obj
      [("consent_id", body.getField "consent_id"),
       ("scope", body.getField "scope"),
       ("contact", if (body.getField "contact").truthy then body.getField "contact"
                   else .obj []),
       ("timestamp", .str now)]
    let topic : String := "device/" ++ (body.getField "device_id").jsStr ++ "/start"
    if publishOk then
      { response := { status := 200,
                      body := .obj [("success", .bool true),
                                    ("message", .str "Start command published"),
                                    ("topic", .str topic)] }
        mqttContacted := true
        published := [(topic, payload)] }
    else
      { response := { status := 500,
                      body := .obj [("error", .str "Failed to publish start command")] }
        mqttContacted := true
        published := [] }

/-- The in-memory consent store of the consent route (src/unnamed/part_001):
a map from consent id to the stored record, modelled as an association list
whose `set` prepends (so lookup finds the most recent binding, matching
`Map.set`/`Map.get`). -/
abbrev ConsentStore := List (String × Json)

/-- JavaScript `a || b` over a nullable header string: `b` when `a` is
absent or empty (falsy), else `a`. -/
def orElseStr (a : Option String) (b : String) : String :=
  match a with
  | some s => if s == "" then b else s
  | none => b

/-- The `ip_address` resolution of the consent route:
`x-forwarded-for || x-real-ip || 'unknown'`. -/
def resolveIp (fwdFor realIp : Option String) : String :=
  orElseStr fwdFor (orElseStr realIp "unknown")

/-- The consent record stored by the consent route's POST handler, field by
field as built in src/unnamed/part_001. -/
def consentRecordJson (body : Json) (consentId now ip : String) : Json :=
  .obj [("consent_id", .str consentId),
        ("timestamp", .str now),
        ("name", body.getField "name"),
        ("email", body.getField "email"),
        ("company", body.getField "company"),
        ("device_id", body.getField "device"),
        ("scope", body.getField "scope"),
        ("authorized", if (body.getField "authorized").truthy then body.getField "authorized"
                       else .bool false),
        ("ip_address", .str ip)]

/-- The consent route's POST handler (src/unnamed/part_001): validates the
five required fields, generates a consent id (`freshId` stands for the
`randomUUID()` result), stores the record, and returns the id. -/
def consentPOST (store : ConsentStore) (body : Json) (freshId now : String)
    (fwdFor realIp : Option String) : ConsentStore × HttpResponse :=
  if !(body.getField "name").truthy || !(body.getField "email").truthy
      || !(body.getField "company").truthy || !(body.getField "device").truthy
      || !(body.getField "scope").truthy then
    (store, { status := 400, body := .obj [("error", .str "Missing required fields")] })
  else
    let record := consentRecordJson body freshId now (resolveIp fwdFor realIp)
    ((freshId, record) :: store,
     { status := 200,
       body := .obj [("consent_id", .str freshId),
                     ("message", .str "Consent recorded successfully")] })

/-- The consent route's GET handler (src/unnamed/part_001): 400 when the
`consent_id` query parameter is absent or empty (falsy), 404 when no record
is stored under it, otherwise the stored record. -/
def consentGET (store : ConsentStore) (param : Option String) : HttpResponse :=
  match param with
  | none => { status := 400, body := .obj [("error", .str "consent_id parameter required")] }
  | some cid =>
    if cid == "" then
      { status := 400, body := .obj [("error", .str "consent_id parameter required")] }
    else
      match store.lookup cid with
      | none => { status := 404, body := .obj [("error", .str "Consent not found")] }
      | some c => { status := 200, body := c }

/-- The state held by the ConsentForm component
(src/portal/app/components/ConsentForm.tsx): the form fields, the CIDR list
and the (never-populated) HTTP host list of the scope, and the
authorization checkbox. -/
structure FormState where
  name : String
  email : String
  company : String
  device : String
  cidr : List String
  httpHosts : List String
  authorized : Bool

/-- The query-parameter prefill values passed to the ConsentForm
(src/portal/app/page.tsx: each is the parameter's value or the empty
string). -/
structure Prefill where
  name : String
  email : String
  company : String
  device : String
  cidr : String

/-- The initial ConsentForm state (ConsentForm.tsx lines 17-27): prefilled
fields, a CIDR list seeded from the prefill or the placeholder default, an
empty `http_hosts` list, and `authorized: false`. -/
def initFormState (p : Prefill) : FormState :=
  { name := p.name
    email := p.email
    company := p.company
    device := p.device
    cidr := if p.cidr == "" then ["192.168.1.0/24"] else [p.cidr]
    httpHosts := []
    authorized := false }

/-- The `scope` object of the form state as serialized to JSON: it carries
exactly the keys `cidr` and `http_hosts` (ConsentForm.tsx). -/
def scopeJson (st : FormState) : Json :=
  .obj [("cidr", .arr (st.cidr.map Json.str)),
        ("http_hosts", .arr (st.httpHosts.map Json.str))]

/-- The body POSTed to /api/consent by the portal page's handleSubmit
(page.tsx: `JSON.stringify(formData)`). -/
def consentBodyJson (st : FormState) : Json :=
  .obj [("name", .str st.name),
        ("email", .str st.email),
        ("company", .str st.company),
        ("device", .str st.device),
        ("scope", scopeJson st),
        ("authorized", .bool st.authorized)]

/-- The StartRequest body assembled by the portal page's handleSubmit and
POSTed to /api/publishStart (page.tsx lines 52-67): device id, the consent
id returned by the consent route, the form's scope object, and a contact
object with name, email and company. -/
def startRequestBody (st : FormState) (consentId : String) : Json :=
  .obj [("device_id", .str st.device),
        ("consent_id", .str consentId),
        ("scope", scopeJson st),
        ("contact", .obj [("name", .str st.name),
                          ("email", .str st.email),
                          ("company", .str st.company)])]

/-- Modelled from the spec: the device orchestrator's Python sources
(main.py and its scan/summarize/report/upload modules) are not in the
repository snapshot under src/; spec section 4.1 lists the run states of
the Orchestrator state machine. -/
inductive RunState where
  | IDLE
  | VALIDATING
  | SCANNING
  | SUMMARIZING
  | REPORTING
  | UPLOADING
  | COMPLETE
  | ABORTED
  | FAILED
deriving DecidableEq, Repr

/-- Modelled from the spec: the contact block of a StartRequest (section 3);
the device-side parser of the MQTT payload is not under src/. -/
structure Contact where
  name : String
  email : String
  company : String

/-- Modelled from the spec: the scope block of a StartRequest (section 3). -/
structure ScopeBlock where
  cidr_list : List String
  http_hosts : List String

/-- Modelled from the spec: a StartRequest (section 3), immutable once
accepted. -/
structure StartRequest where
  device_id : String
  consent_id : String
  scope : ScopeBlock
  contact : Contact
  received_at : String

/-- Modelled from the spec: a Finding (section 3), append-only, produced by
Tool Runners. -/
structure Finding where
  target : String
  tool : String
  category : String
  severity_hint : String
  raw_detail : String
  timestamp : String
deriving DecidableEq, Repr

/-- Modelled from the spec: a RunContext (section 3) owns the run id
(derived from the consent id), the current state, a deadline, the Abort
flag and the accumulated findings. -/
structure RunContext where
  run_id : String
  state : RunState
  deadline : Nat
  abortFlag : Bool
  findings : List Finding

/-- Modelled from the spec: the RunContext created when a StartRequest is
accepted (sections 3 and 4.1): run id derived from the consent id, state
VALIDATING, abort flag clear, no findings yet. -/
def mkRunContext (req : StartRequest) (deadline : Nat) : RunContext :=
  { run_id := req.consent_id
    state := .VALIDATING
    deadline := deadline
    abortFlag := false
    findings := [] }

/-- Modelled from the spec: the Orchestrator's top-level mutable state —
its RunState and the RunContext of the active run, if any. -/
structure Orchestrator where
  state : RunState
  run : Option RunContext

/-- Modelled from the spec: the result of `submit(StartRequest)` —
accepted, or rejected with Busy (sections 4.1 and 7). -/
inductive SubmitResult where
  | accepted
  | busy
deriving DecidableEq, Repr

/-- Modelled from the spec: `submit(StartRequest)` (section 4.1) — rejected
with Busy if the state is not IDLE (no state change, no new RunContext);
otherwise creates a RunContext and transitions to VALIDATING. -/
def submit (o : Orchestrator) (req : StartRequest) (deadline : Nat) :
    SubmitResult × Orchestrator :=
  if o.state = .IDLE then
    (.accepted, { state := .VALIDATING, run := some (mkRunContext req deadline) })
  else
    (.busy, o)

/-- Modelled from the spec: the verdict attached to each scope entry by the
Scope Validator (sections 3 and 4.2). -/
inductive Verdict where
  | allowed
  | rejected
deriving DecidableEq, Repr

/-- Modelled from the spec: the kind of a scope entry — a CIDR block or a
declared HTTP host (sections 3 and 4.3). -/
inductive EntryKind where
  | cidrBlock
  | httpHost
deriving DecidableEq, Repr

/-- Modelled from the spec: one entry of a requested ScopeSpec. -/
structure ScopeEntry where
  target : String
  kind : EntryKind
deriving DecidableEq, Repr

/-- Modelled from the spec: a scope entry after validation, tagged
allowed or rejected (section 3). -/
structure TaggedEntry where
  entry : ScopeEntry
  verdict : Verdict
deriving DecidableEq, Repr

/-- Modelled from the spec: the Scope Validator (section 4.2, code not under
src/) — checks each requested entry against the configured allow-list
(`inAllowList` abstracts the CIDR-containment test against the configured
private ranges) and tags it allowed or rejected; it never expands scope and
never drops an entry silently. -/
def validateScope (inAllowList : String → Bool) (scope : List ScopeEntry) :
    List TaggedEntry :=
  scope.map fun e =>
    { entry := e, verdict := if inAllowList e.target then .allowed else .rejected }

/-- Modelled from the spec: the kind of tool invocation of one work item
(section 4.3): port/service enumeration, web probing, or transport-security
check. -/
inductive ToolKind where
  | portScan
  | webProbe
  | tlsCheck
deriving DecidableEq, Repr

/-- Modelled from the spec: one `{target, tool_kind}` work item produced by
the Scan Planner (section 4.3). -/
structure WorkItem where
  target : String
  tool_kind : ToolKind
deriving DecidableEq, Repr

/-- Modelled from the spec: the tool invocations the Planner derives from
one allowed entry (section 4.3): one port/service enumeration per CIDR
block, one web probe per HTTP host, one transport-security check per
TLS-capable host (`tlsCap` abstracts TLS capability). -/
def toolItems (tlsCap : String → Bool) (e : ScopeEntry) : List WorkItem :=
  match e.kind with
  | .cidrBlock => [{ target := e.target, tool_kind := .portScan }]
  | .httpHost =>
    { target := e.target, tool_kind := .webProbe } ::
      (if tlsCap e.target then [{ target := e.target, tool_kind := .tlsCheck }] else [])

/-- Modelled from the spec: the Scan Planner (section 4.3, code not under
src/) — produces the ordered work-item list from the validated scope, using
only entries tagged allowed. -/
def planWork (tlsCap : String → Bool) (tagged : List TaggedEntry) : List WorkItem :=
  (tagged.filter fun e => decide (e.verdict = .allowed)).flatMap fun e =>
    toolItems tlsCap e.entry

/-- Modelled from the spec: the Summarizer output
`Summary{executive_text, finding_table}` (section 4.4). -/
structure Summary where
  executive_text : String
  finding_table : List (String × Nat)
deriving DecidableEq, Repr

/-- Increment the count of a label in an ordered count list, appending it
with count 1 when new. -/
def bumpCount : List (String × Nat) → String → List (String × Nat)
  | [], c => [(c, 1)]
  | (c', n) :: rest, c =>
    if c' == c then (c', n + 1) :: rest else (c', n) :: bumpCount rest c

/-- Modelled from the spec: the per-category finding counts the template
fallback is built from (section 4.4). -/
def categoryCounts (fs : List Finding) : List (String × Nat) :=
  fs.foldl (fun acc f => bumpCount acc f.category) []

/-- Modelled from the spec: the per-severity-hint counts the template
fallback is built from (section 4.4). -/
def severityCounts (fs : List Finding) : List (String × Nat) :=
  fs.foldl (fun acc f => bumpCount acc f.severity_hint) []

/-- Render a count list into prose for the templated summary. -/
def renderCounts (xs : List (String × Nat)) : String :=
  String.intercalate ", " (xs.map fun p => p.1 ++ ": " ++ toString p.2)

/-- Modelled from the spec: the deterministic templated summary built from
category counts and severity hints — a pure data transformation with no
external call (section 4.4). -/
def templateSummary (cats sevs : List (String × Nat)) : Summary :=
  { executive_text :=
      "Automated summary. Findings by category: " ++ renderCounts cats ++
        ". Severity hints: " ++ renderCounts sevs ++ "."
    finding_table := cats }

/-- Modelled from the spec: the Summarizer's deterministic template
fallback as a function of the FindingSet (section 4.4, code not under
src/). -/
def fallbackSummary (fs : List Finding) : Summary :=
  templateSummary (categoryCounts fs) (severityCounts fs)

/-- Modelled from the spec: the outcome of the local inference call —
prose, or a failure (timeout, model unavailable, malformed output)
(section 4.4). -/
inductive InferenceResult where
  | ok (text : String)
  | failed
deriving DecidableEq, Repr

/-- Modelled from the spec: the Summarizer (section 4.4, code not under
src/) — uses the inference prose when the bounded inference call succeeds,
and falls back deterministically to the templated summary on any failure. -/
def summarize (infer : InferenceResult) (fs : List Finding) : Summary :=
  match infer with
  | .ok t => { executive_text := t, finding_table := categoryCounts fs }
  | .failed => fallbackSummary fs

/-- Modelled from the spec: a ReportArtifact (section 3), immutable once
built. -/
structure ReportArtifact where
  pdf_bytes : List Nat
  sha256 : Nat
  consent_id : String
  device_id : String
  generated_at : String
deriving DecidableEq, Repr

/-- Modelled from the spec: the rendered report bytes as a function of the
findings and the summary (section 4.5); the concrete PDF rendering is
abstracted to an encoding of the same data. -/
def renderBytes (fs : List Finding) (s : Summary) : List Nat :=
  (s.executive_text.data.map Char.toNat) ++
    fs.flatMap fun f =>
      (f.target ++ f.tool ++ f.category ++ f.severity_hint ++ f.raw_detail).data.map
        Char.toNat

/-- Modelled from the spec: the content hash over the rendered bytes
(section 4.5); SHA-256 is abstracted to a 64-bit polynomial fold. -/
def contentHash (bytes : List Nat) : Nat :=
  bytes.foldl (fun h b => (h * 131 + b) % 2 ^ 64) 0

/-- Modelled from the spec: the Report Builder (section 4.5, code not under
src/) — a pure function of findings, summary and request metadata,
deterministic aside from the generation timestamp, computing a content
hash over the rendered bytes. -/
def buildReport (fs : List Finding) (s : Summary) (req : StartRequest) (now : String) :
    ReportArtifact :=
  let bytes := renderBytes fs s
  { pdf_bytes := bytes
    sha256 := contentHash bytes
    consent_id := req.consent_id
    device_id := req.device_id
    generated_at := now }

/-- Modelled from the spec: one upload attempt's outcome (section 4.6) — a
receipt on success, a transient failure (connection error or 5xx), or a
fatal 4xx (auth or validation). -/
inductive UploadOutcome where
  | receipt (receiptId : String)
  | transient
  | fatal
deriving DecidableEq, Repr

/-- Modelled from the spec: what the Uploader leaves behind (sections 3 and
4.6): the UploadReceipt when one was obtained, how many attempts were made,
and whether the artifact was persisted to local durable storage tagged
pending_upload (which happens exactly when no receipt was obtained, so the
artifact is never deleted before a receipt exists). -/
structure UploadResult where
  receiptObtained : Option String
  attemptsMade : Nat
  pendingLocal : Bool
deriving DecidableEq, Repr

/-- Modelled from the spec: the Uploader's retry loop (section 4.6, code
not under src/). `resp k` is the outcome of attempt number `k` (0-based);
the fuel is the remaining attempt budget. A transient failure is retried
(backoff delays are abstracted away), a receipt or a fatal 4xx ends the
loop at once, and an exhausted budget persists the artifact locally. -/
def uploadGo (resp : Nat → UploadOutcome) : Nat → Nat → UploadResult
  | 0, made => { receiptObtained := none, attemptsMade := made, pendingLocal := true }
  | fuel + 1, made =>
    match resp made with
    | .receipt r =>
      { receiptObtained := some r, attemptsMade := made + 1, pendingLocal := false }
    | .fatal =>
      { receiptObtained := none, attemptsMade := made + 1, pendingLocal := true }
    | .transient => uploadGo resp fuel (made + 1)

/-- Modelled from the spec: `upload(ReportArtifact, metadata)` with its
bounded attempt count (section 4.6). -/
def runUploader (maxAttempts : Nat) (resp : Nat → UploadOutcome) : UploadResult :=
  uploadGo resp maxAttempts 0

/-- Modelled from the spec: whether the Abort flag reads as set at
checkpoint number `i`; `some k` means the physical long-press lands after
`k` targets have completed, `none` means no abort (section 4.1). -/
def abortFlagAt : Option Nat → Nat → Bool
  | none, _ => false
  | some k, i => decide (k ≤ i)

/-- Modelled from the spec: what the scanning stage hands back — the
findings aggregated so far, the work items actually launched, and whether
the Abort flag cut the dispatch loop short (sections 4.3 and 5). -/
structure ScanOutcome where
  findings : List Finding
  launched : List WorkItem
  abortedDuringScan : Bool
deriving DecidableEq, Repr

/-- Modelled from the spec: the Planner's dispatch loop (section 4.3, code
not under src/): before launching the next Tool Runner it observes the
Abort flag (`flagAt i` after `i` completed targets) and stops dispatching
once set, preserving the findings already collected; `toolRun` is the
supervised tool invocation returning its structured findings (a timeout is
itself recorded as a finding by the Tool Runner). -/
def scanLoop (toolRun : WorkItem → List Finding) (flagAt : Nat → Bool) :
    List WorkItem → Nat → ScanOutcome
  | [], _ => { findings := [], launched := [], abortedDuringScan := false }
  | w :: rest, i =>
    if flagAt i then
      { findings := [], launched := [], abortedDuringScan := true }
    else
      let tail := scanLoop toolRun flagAt rest (i + 1)
      { findings := toolRun w ++ tail.findings
        launched := w :: tail.launched
        abortedDuringScan := tail.abortedDuringScan }

/-- Modelled from the spec: the requested ScopeSpec of a StartRequest as an
ordered entry list — the CIDR blocks then the declared HTTP hosts
(section 3). -/
def scopeEntries (req : StartRequest) : List ScopeEntry :=
  req.scope.cidr_list.map (fun c => { target := c, kind := .cidrBlock }) ++
    req.scope.http_hosts.map fun h => { target := h, kind := .httpHost }

/-- Modelled from the spec: everything one run of the pipeline depends on —
the accepted StartRequest, the configured allow-list test, TLS capability,
the supervised tool invocations, the inference outcome, when (if ever) the
Abort flag is set, and the Uploader's attempt budget and per-attempt
outcomes. -/
structure PipelineInput where
  req : StartRequest
  inAllowList : String → Bool
  tlsCap : String → Bool
  toolRun : WorkItem → List Finding
  infer : InferenceResult
  abortSetAfter : Option Nat
  maxAttempts : Nat
  uploadResp : Nat → UploadOutcome
  now : String

/-- Modelled from the spec: the observable outcome of one run — the
terminal state, the report artifacts produced, the receipt or local
pending persistence, the aggregated findings, the planned work items, and
how many upload attempts were made. -/
structure PipelineResult where
  finalState : RunState
  artifacts : List ReportArtifact
  receiptObtained : Option String
  pendingLocal : Bool
  findings : List Finding
  workItems : List WorkItem
  uploadAttempts : Nat

/-- Modelled from the spec: the Orchestrator's run pipeline (sections 4.1,
4.3-4.6 and 7; the device Python sources are not under src/). Validation
first: a scope with no allowed entry is the fatal ScopeEmpty error — the
run moves to FAILED, skips scanning, but still builds a minimal
failure-note artifact and attempts a best-effort upload. Otherwise the
Planner dispatches the work items while observing the Abort flag; on abort
(during scanning or at the pre-Summarizer / pre-Upload checkpoints) the run
ends ABORTED but the Report Builder and Uploader still run on the findings
collected so far, the summary coming from the deterministic fallback. A
run that was not aborted ends COMPLETE when a receipt was obtained and
FAILED when the upload budget was exhausted or a fatal 4xx occurred; in
either failure the artifact stays persisted locally. -/
def runPipeline (inp : PipelineInput) : PipelineResult :=
  let tagged := validateScope inp.inAllowList (scopeEntries inp.req)
  if tagged.all fun e => decide (e.verdict = .rejected) then
    let art := buildReport [] (fallbackSummary []) inp.req inp.now
    let up := runUploader inp.maxAttempts inp.uploadResp
    { finalState := .FAILED
      artifacts := [art]
      receiptObtained := up.receiptObtained
      pendingLocal := up.pendingLocal
      findings := []
      workItems := []
      uploadAttempts := up.attemptsMade }
  else
    let items := planWork inp.tlsCap tagged
    let flagAt := abortFlagAt inp.abortSetAfter
    let sc := scanLoop inp.toolRun flagAt items 0
    let aborted := sc.abortedDuringScan || flagAt sc.launched.length
    let summary :=
      if aborted then fallbackSummary sc.findings else summarize inp.infer sc.findings
    let art := buildReport sc.findings summary inp.req inp.now
    let up := runUploader inp.maxAttempts inp.uploadResp
    let final :=
      if aborted then RunState.ABORTED
      else
        match up.receiptObtained with
        | some _ => RunState.COMPLETE
        | none => RunState.FAILED
    { finalState := final
      artifacts := [art]
      receiptObtained := up.receiptObtained
      pendingLocal := up.pendingLocal
      findings := sc.findings
      workItems := items
      uploadAttempts := up.attemptsMade }

/-- A concrete StartRequest used by the witness theorems. -/
def reqW : StartRequest :=
  { device_id := "scout-001"
    consent_id := "consent-w"
    scope := { cidr_list := ["192.168.1.0/24"], http_hosts := [] }
    contact := { name := "Test User", email := "test@example.com", company := "Acme" }
    received_at := "2026-01-01T00:00:00Z" }

/-- A concrete ten-CIDR StartRequest for the abort-scenario witness. -/
def reqTen : StartRequest :=
  { device_id := "scout-001"
    consent_id := "consent-ten"
    scope :=
      { cidr_list :=
          ["10.0.0.0/24", "10.0.1.0/24", "10.0.2.0/24", "10.0.3.0/24", "10.0.4.0/24",
           "10.0.5.0/24", "10.0.6.0/24", "10.0.7.0/24", "10.0.8.0/24", "10.0.9.0/24"]
        http_hosts := [] }
    contact := { name := "Test User", email := "test@example.com", company := "Acme" }
    received_at := "2026-01-01T00:00:00Z" }

/-- A concrete tool result used by the witness theorems. -/
def toolRunW (w : WorkItem) : List Finding :=
  [{ target := w.target, tool := "nmap", category := "open_port",
     severity_hint := "info", raw_detail := "80/tcp open", timestamp := "t0" }]

/-- A concrete pipeline input (no abort, uploads always transient) used by
the witness theorems. -/
def inpW : PipelineInput :=
  { req := reqW
    inAllowList := fun t => t == "192.168.1.0/24"
    tlsCap := fun _ => false
    toolRun := toolRunW
    infer := .failed
    abortSetAfter := none
    maxAttempts := 3
    uploadResp := fun _ => .transient
    now := "2026-01-01T01:00:00Z" }

/-- A concrete pipeline input whose Abort flag is set after 3 of 10 targets
have completed, used by the abort-scenario witness. -/
def inpAbort : PipelineInput :=
  { req := reqTen
    inAllowList := fun _ => true
    tlsCap := fun _ => false
    toolRun := toolRunW
    infer := .ok "inference text"
    abortSetAfter := some 3
    maxAttempts := 2
    uploadResp := fun _ => .receipt "rcpt-1"
    now := "2026-01-01T01:00:00Z" }

/-- The work items the Planner derives for a pipeline input's request. -/
def plannedItems (inp : PipelineInput) : List WorkItem :=
  planWork inp.tlsCap (validateScope inp.inAllowList (scopeEntries inp.req))

/-- The findings of exactly the first `k` planned work items. -/
def partialFindings (inp : PipelineInput) (k : Nat) : List Finding :=
  ((plannedItems inp).take k).flatMap inp.toolRun

/-- A concrete allow-list test used by the witness theorems. -/
def inAllowW (t : String) : Bool := t == "192.168.1.0/24"

/-- A concrete requested scope used by the witness theorems: one allowed
CIDR block and one disallowed host. -/
def scopeW : List ScopeEntry :=
  [{ target := "192.168.1.0/24", kind := .cidrBlock },
   { target := "203.0.113.7", kind := .httpHost }]

/-- A concrete TLS-capability test used by the witness theorems. -/
def tlsCapW (_ : String) : Bool := false

/-- A concrete valid publishStart request body used by the witness
theorems (no contact field, so the payload's contact defaults). -/
def bodyW : Json :=
  .obj [("device_id", .str "scout-001"),
        ("consent_id", .str "consent-w"),
        ("scope", .obj [("cidr", .arr [.str "192.168.1.0/24"]),
                        ("http_hosts", .arr [])])]

/-- A concrete publishStart request body lacking the scope field, used by
the witness theorems. -/
def bodyMissingW : Json :=
  .obj [("device_id", .str "scout-001"), ("consent_id", .str "consent-w")]

/-- A concrete valid consent request body used by the witness theorems. -/
def consentBodyW : Json :=
  .obj [("name", .str "Test User"),
        ("email", .str "test@example.com"),
        ("company", .str "Acme"),
        ("device", .str "scout-001"),
        ("scope", .obj [("cidr", .arr [.str "192.168.1.0/24"]),
                        ("http_hosts", .arr [])]),
        ("authorized", .bool true)]

/-- A concrete prefill used by the counterexample theorem. -/
def prefillW : Prefill :=
  { name := "Test User", email := "test@example.com", company := "Acme",
    device := "scout-001", cidr := "" }

/-- A concrete finding list used by the witness theorems. -/
def findingsW : List Finding :=
  [{ target := "192.168.1.0/24", tool := "nmap", category := "open_port",
     severity_hint := "info", raw_detail := "80/tcp open", timestamp := "t0" }]

/-- The same findings with a different raw detail: the category and
severity counts agree with `findingsW`. -/
def findingsW' : List Finding :=
  [{ target := "192.168.1.0/24", tool := "nmap", category := "open_port",
     severity_hint := "info", raw_detail := "443/tcp open", timestamp := "t1" }]

theorem getField_of_not_hasKey (j : Json) (k : String) (h : j.hasKey k = false) :
    j.getField k = .null := by
  cases j <;> simp only [Json.hasKey, Json.getField] at *
  case obj fields =>
    cases hl : List.lookup k fields with
    | none => rfl
    | some v => rw [hl] at h; simp at h

theorem toolItems_target (tlsCap : String → Bool) (e : ScopeEntry) :
    ∀ w ∈ toolItems tlsCap e, w.target = e.target := by
  intro w hw
  cases hk : e.kind <;> rw [toolItems, hk] at hw
  · simp only [List.mem_singleton] at hw
    rw [hw]
  · rcases List.mem_cons.mp hw with h | h
    · rw [h]
    · by_cases hc : tlsCap e.target
      · simp only [hc, if_true, List.mem_singleton] at h
        rw [h]
      · simp [hc] at h

theorem uploadGo_pending (resp : Nat → UploadOutcome) :
    ∀ fuel made, (uploadGo resp fuel made).receiptObtained = none →
      (uploadGo resp fuel made).pendingLocal = true := by
  intro fuel
  induction fuel with
  | zero => intro made _; rfl
  | succ n ih =>
    intro made h
    cases hr : resp made with
    | receipt r => rw [uploadGo, hr] at h; exact absurd h (by simp)
    | fatal => rw [uploadGo, hr]
    | transient =>
      rw [uploadGo, hr] at h ⊢
      exact ih (made + 1) h

theorem uploadGo_made_le (resp : Nat → UploadOutcome) :
    ∀ fuel made, made ≤ (uploadGo resp fuel made).attemptsMade := by
  intro fuel
  induction fuel with
  | zero => intro made; exact Nat.le_refl made
  | succ n ih =>
    intro made
    cases hr : resp made with
    | receipt r => rw [uploadGo, hr]; exact Nat.le_succ made
    | fatal => rw [uploadGo, hr]; exact Nat.le_succ made
    | transient =>
      rw [uploadGo, hr]
      exact Nat.le_trans (Nat.le_succ made) (ih (made + 1))

theorem uploadGo_attempts_le (resp : Nat → UploadOutcome) :
    ∀ fuel made, (uploadGo resp fuel made).attemptsMade ≤ made + fuel := by
  intro fuel
  induction fuel with
  | zero => intro made; exact Nat.le_refl made
  | succ n ih =>
    intro made
    cases hr : resp made with
    | receipt r => simp only [uploadGo, hr]; omega
    | fatal => simp only [uploadGo, hr]; omega
    | transient =>
      simp only [uploadGo, hr]
      have := ih (made + 1)
      omega

theorem uploadGo_mid_transient (resp : Nat → UploadOutcome) :
    ∀ fuel made k, made ≤ k → k + 1 < (uploadGo resp fuel made).attemptsMade →
      resp k = .transient := by
  intro fuel
  induction fuel with
  | zero =>
    intro made k hmk hk
    simp only [uploadGo] at hk
    omega
  | succ n ih =>
    intro made k hmk hk
    cases hr : resp made with
    | receipt r => simp only [uploadGo, hr] at hk; omega
    | fatal => simp only [uploadGo, hr] at hk; omega
    | transient =>
      simp only [uploadGo, hr] at hk
      rcases Nat.eq_or_lt_of_le hmk with h | h
      · rw [← h]; exact hr
      · exact ih (made + 1) k h hk

theorem uploadGo_all_transient (resp : Nat → UploadOutcome)
    (h : ∀ j, resp j = .transient) :
    ∀ fuel made, uploadGo resp fuel made =
      { receiptObtained := none, attemptsMade := made + fuel, pendingLocal := true } := by
  intro fuel
  induction fuel with
  | zero => intro made; rfl
  | succ n ih =>
    intro made
    have harith : made + 1 + n = made + (n + 1) := by omega
    simp only [uploadGo, h made, ih (made + 1), harith]

theorem uploadGo_pos (resp : Nat → UploadOutcome) (fuel made : Nat) (h : 1 ≤ fuel) :
    made + 1 ≤ (uploadGo resp fuel made).attemptsMade := by
  cases fuel with
  | zero => omega
  | succ n =>
    cases hr : resp made with
    | receipt r => rw [uploadGo, hr]
    | fatal => rw [uploadGo, hr]
    | transient =>
      rw [uploadGo, hr]
      exact uploadGo_made_le resp n (made + 1)

theorem scanLoop_flag (toolRun : WorkItem → List Finding) (k : Nat) :
    ∀ (items : List WorkItem) (i : Nat), i ≤ k →
      scanLoop toolRun (abortFlagAt (some k)) items i =
        { findings := (items.take (k - i)).flatMap toolRun
          launched := items.take (k - i)
          abortedDuringScan := decide (k - i < items.length) } := by
  intro items
  induction items with
  | nil => intro i _; simp [scanLoop]
  | cons w rest ih =>
    intro i hik
    rcases Nat.eq_or_lt_of_le hik with h | h
    · have hflag : abortFlagAt (some k) i = true := by
        rw [abortFlagAt]
        exact decide_eq_true (Nat.le_of_eq h.symm)
      rw [scanLoop, hflag]
      simp only [if_true]
      have hzero : k - i = 0 := by omega
      simp [hzero]
    · have hflag : abortFlagAt (some k) i = false := by
        rw [abortFlagAt]
        exact decide_eq_false (by omega)
      rw [scanLoop, hflag]
      simp only [Bool.false_eq_true, if_false]
      rw [ih (i + 1) (by omega)]
      have hsub : k - i = (k - (i + 1)) + 1 := by omega
      rw [hsub]
      simp only [List.take_succ_cons, List.flatMap_cons, List.length_cons]
      have hbool : decide (k - (i + 1) + 1 < rest.length + 1) =
          decide (k - (i + 1) < rest.length) := by
        rw [decide_eq_decide]
        omega
      rw [hbool]

/-- Claim C1: for every ScopeSpec input to the Scope Validator, the output
entries partition exactly into allowed and rejected with no target
appearing in both, and every scan work item handed to a Tool Runner traces
to an allowed entry — none is produced from a rejected entry. -/
theorem c1_scope_partition (inA : String → Bool) (scope : List ScopeEntry)
    (tlsCap : String → Bool) :
    (∀ e ∈ validateScope inA scope, e.verdict = .allowed ∨ e.verdict = .rejected) ∧
    (∀ t : String,
      ¬((∃ e ∈ validateScope inA scope, e.entry.target = t ∧ e.verdict = .allowed) ∧
        (∃ e ∈ validateScope inA scope, e.entry.target = t ∧ e.verdict = .rejected))) ∧
    (∀ w ∈ planWork tlsCap (validateScope inA scope),
      ∃ e ∈ validateScope inA scope, e.verdict = .allowed ∧ w.target = e.entry.target) := by
  refine ⟨?_, ?_, ?_⟩
  · intro e _
    cases h : e.verdict
    · exact Or.inl rfl
    · exact Or.inr rfl
  · rintro t ⟨⟨e1, he1, ht1, hv1⟩, ⟨e2, he2, ht2, hv2⟩⟩
    simp only [validateScope, List.mem_map] at he1 he2
    obtain ⟨s1, _, rfl⟩ := he1
    obtain ⟨s2, _, rfl⟩ := he2
    simp only at ht1 ht2 hv1 hv2
    by_cases h1 : inA s1.target
    · by_cases h2 : inA s2.target
      · rw [if_pos h2] at hv2
        exact absurd hv2 (by simp)
      · rw [ht1] at h1
        rw [ht2] at h2
        exact h2 h1
    · rw [if_neg h1] at hv1
      exact absurd hv1 (by simp)
  · intro w hw
    simp only [planWork, List.mem_flatMap, List.mem_filter, decide_eq_true_eq] at hw
    obtain ⟨e, ⟨he, hv⟩, hitem⟩ := hw
    exact ⟨e, he, hv, toolItems_target tlsCap e.entry w hitem⟩

/-- Claim C1 witness: on a concrete scope, a concrete planned work item
traces to an allowed entry. -/
theorem c1_scope_partition_witness :
    ∃ e ∈ validateScope inAllowW scopeW, e.verdict = .allowed ∧
      ({ target := "192.168.1.0/24", tool_kind := .portScan } : WorkItem).target =
        e.entry.target :=
  (c1_scope_partition inAllowW scopeW tlsCapW).2.2 _ (by decide)

/-- Claim C2: `submit(StartRequest)` while the Orchestrator is not IDLE
returns Busy, creates no new RunContext and leaves the Orchestrator
unchanged; while IDLE it creates a RunContext and transitions to
VALIDATING. -/
theorem c2_submit_guard (o : Orchestrator) (req : StartRequest) (d : Nat) :
    (o.state ≠ .IDLE →
      (submit o req d).1 = .busy ∧ (submit o req d).2 = o) ∧
    (o.state = .IDLE →
      (submit o req d).1 = .accepted ∧ (submit o req d).2.state = .VALIDATING ∧
        (submit o req d).2.run = some (mkRunContext req d)) := by
  constructor
  · intro h
    simp [submit, h]
  · intro h
    simp [submit, h]

/-- Claim C2 witness: a concrete submit against a SCANNING orchestrator is
rejected with Busy and changes nothing. -/
theorem c2_submit_guard_witness :
    (submit { state := .SCANNING, run := none } reqW 10).1 = .busy ∧
      (submit { state := .SCANNING, run := none } reqW 10).2 =
        { state := .SCANNING, run := none } :=
  (c2_submit_guard { state := .SCANNING, run := none } reqW 10).1 (by decide)

/-- Claim C5: a POST to the publishStart route whose body carries
device_id, consent_id and scope (truthy, per the route's own validation)
and whose MQTT connection and publish succeed publishes exactly one
message on topic device/{device_id}/start whose JSON payload consists of
exactly the four fields consent_id, scope, contact and timestamp, with
contact defaulting to an empty object when absent. -/
theorem c5_publish_topic_payload (body : Json) (now : String)
    (hdev : (body.getField "device_id").truthy = true)
    (hcon : (body.getField "consent_id").truthy = true)
    (hsco : (body.getField "scope").truthy = true) :
    (publishStartPOST body now true true).published =
      [("device/" ++ (body.getField "device_id").jsStr ++ "/start",
        Json.obj
          [("consent_id", body.getField "consent_id"),
           ("scope", body.getField "scope"),
           ("contact",
            if (body.getField "contact").truthy then body.getField "contact"
            else Json.obj []),
           ("timestamp", Json.str now)])] ∧
    ((publishStartPOST body now true true).published.map fun p => p.2.keys) =
      [["consent_id", "scope", "contact", "timestamp"]] ∧
    (publishStartPOST body now true true).response.status = 200 := by
  refine ⟨?_, ?_, ?_⟩ <;>
    simp [publishStartPOST, hdev, hcon, hsco, Json.keys]

/-- Claim C5 witness: a concrete valid body publishes with status 200. -/
theorem c5_publish_topic_payload_witness :
    (publishStartPOST bodyW "2026-01-01T00:00:00Z" true true).response.status = 200 :=
  (c5_publish_topic_payload bodyW "2026-01-01T00:00:00Z" rfl rfl rfl).2.2

/-- Claim C6 counterexample: the StartRequest body the portal page
assembles from the initial form state carries a scope object with no
`cidr_list` field — the ConsentForm names the field `cidr`. -/
theorem c6_counterexample :
    ((startRequestBody (initFormState prefillW) "consent-w").getField "scope").hasKey
        "cidr_list" = false := by
  decide

/-- Claim C6 (amended): every StartRequest body assembled and published by
the portal carries a scope object whose fields are `cidr` (not the
`cidr_list` of the spec's data model) and `http_hosts`, and a contact
object with name, email and company. -/
theorem c6_start_request_shape (st : FormState) (cid : String) :
    ((startRequestBody st cid).getField "scope").keys = ["cidr", "http_hosts"] ∧
    ((startRequestBody st cid).getField "contact").keys = ["name", "email", "company"] ∧
    (startRequestBody st cid).keys = ["device_id", "consent_id", "scope", "contact"] :=
  ⟨rfl, rfl, rfl⟩

/-- Claim C9: a POST to the publishStart route whose body lacks any of
device_id, consent_id or scope returns 400 with an error message, never
contacts the MQTT broker, and publishes nothing. -/
theorem c9_publish_missing_fields (body : Json) (now : String)
    (connectOk publishOk : Bool)
    (h : body.hasKey "device_id" = false ∨ body.hasKey "consent_id" = false ∨
      body.hasKey "scope" = false) :
    (publishStartPOST body now connectOk publishOk).response.status = 400 ∧
    (publishStartPOST body now connectOk publishOk).response.body =
      Json.obj [("error", Json.str publishStartErrorMsg)] ∧
    (publishStartPOST body now connectOk publishOk).mqttContacted = false ∧
    (publishStartPOST body now connectOk publishOk).published = [] := by
  rcases h with h | h | h <;>
    · have hnull := getField_of_not_hasKey body _ h
      refine ⟨?_, ?_, ?_, ?_⟩ <;> simp [publishStartPOST, hnull, Json.truthy]

/-- Claim C9 witness: a concrete body lacking scope gets a 400 and no MQTT
contact. -/
theorem c9_publish_missing_fields_witness :
    (publishStartPOST bodyMissingW "t" true true).response.status = 400 ∧
      (publishStartPOST bodyMissingW "t" true true).mqttContacted = false :=
  ⟨(c9_publish_missing_fields bodyMissingW "t" true true (Or.inr (Or.inr rfl))).1,
   (c9_publish_missing_fields bodyMissingW "t" true true (Or.inr (Or.inr rfl))).2.2.1⟩

/-- Claim C10: a POST to the consent route with name, email, company,
device and scope returns the freshly generated consent id with the record
stored under it; a GET with that id returns exactly the stored record; a
GET with a never-stored id returns 404; a GET without the consent_id
parameter returns 400. -/
theorem c10_consent_roundtrip (store : ConsentStore) (body : Json)
    (freshId now : String) (fwdFor realIp : Option String)
    (hname : (body.getField "name").truthy = true)
    (hemail : (body.getField "email").truthy = true)
    (hcompany : (body.getField "company").truthy = true)
    (hdevice : (body.getField "device").truthy = true)
    (hscope : (body.getField "scope").truthy = true)
    (hfresh : freshId ≠ "") :
    (consentPOST store body freshId now fwdFor realIp).2.status = 200 ∧
    (consentPOST store body freshId now fwdFor realIp).2.body =
      Json.obj [("consent_id", .str freshId),
                ("message", .str "Consent recorded successfully")] ∧
    (consentPOST store body freshId now fwdFor realIp).1.lookup freshId =
      some (consentRecordJson body freshId now (resolveIp fwdFor realIp)) ∧
    consentGET (consentPOST store body freshId now fwdFor realIp).1 (some freshId) =
      { status := 200, body := consentRecordJson body freshId now (resolveIp fwdFor realIp) } ∧
    (∀ s : ConsentStore, ∀ cid : String, cid ≠ "" → s.lookup cid = none →
      consentGET s (some cid) =
        { status := 404, body := .obj [("error", .str "Consent not found")] }) ∧
    (∀ s : ConsentStore, consentGET s none =
      { status := 400, body := .obj [("error", .str "consent_id parameter required")] }) := by
  have hbeq : (freshId == "") = false := beq_eq_false_iff_ne.mpr hfresh
  refine ⟨?_, ?_, ?_, ?_, ?_, ?_⟩
  · simp [consentPOST, hname, hemail, hcompany, hdevice, hscope]
  · simp [consentPOST, hname, hemail, hcompany, hdevice, hscope]
  · simp [consentPOST, hname, hemail, hcompany, hdevice, hscope, List.lookup]
  · simp [consentPOST, hname, hemail, hcompany, hdevice, hscope, consentGET, hbeq,
      List.lookup]
  · intro s cid hcid hnone
    have hcbeq : (cid == "") = false := beq_eq_false_iff_ne.mpr hcid
    simp [consentGET, hcbeq, hnone]
  · intro s
    rfl

/-- Claim C10 witness: a concrete valid consent POST stores and returns the
fresh id with status 200, and the follow-up GET returns the record. -/
theorem c10_consent_roundtrip_witness :
    (consentPOST [] consentBodyW "uuid-1" "t0" none none).2.status = 200 ∧
      consentGET (consentPOST [] consentBodyW "uuid-1" "t0" none none).1 (some "uuid-1") =
        { status := 200, body := consentRecordJson consentBodyW "uuid-1" "t0" "unknown" } :=
  ⟨(c10_consent_roundtrip [] consentBodyW "uuid-1" "t0" none none rfl rfl rfl rfl rfl
      (by decide)).1,
   (c10_consent_roundtrip [] consentBodyW "uuid-1" "t0" none none rfl rfl rfl rfl rfl
      (by decide)).2.2.2.1⟩

/-- Claim C7: the Uploader makes at most the bounded attempt count, every
attempt that was followed by another had a transient outcome (so a 4xx —
or a receipt — is never retried), whenever no receipt was obtained the
artifact is persisted locally tagged pending_upload, and under always-
transient responses (the repeated-503 scenario) the budget is exhausted
exactly and the artifact persisted instead of retrying indefinitely. -/
theorem c7_uploader (maxA : Nat) (resp : Nat → UploadOutcome) :
    (runUploader maxA resp).attemptsMade ≤ maxA ∧
    (∀ k, k + 1 < (runUploader maxA resp).attemptsMade → resp k = .transient) ∧
    ((runUploader maxA resp).receiptObtained = none →
      (runUploader maxA resp).pendingLocal = true) ∧
    ((∀ j, resp j = .transient) →
      (runUploader maxA resp).attemptsMade = maxA ∧
        (runUploader maxA resp).receiptObtained = none ∧
        (runUploader maxA resp).pendingLocal = true) := by
  refine ⟨?_, ?_, ?_, ?_⟩
  · have h := uploadGo_attempts_le resp maxA 0
    simpa [runUploader] using h
  · intro k hk
    exact uploadGo_mid_transient resp maxA 0 k (Nat.zero_le k) hk
  · exact uploadGo_pending resp maxA 0
  · intro hall
    have h := uploadGo_all_transient resp hall maxA 0
    rw [runUploader, h]
    exact ⟨Nat.zero_add maxA, rfl, rfl⟩

/-- Claim C7 witness: with budget 3 and every attempt answered by a
transient failure, exactly 3 attempts are made, no receipt exists, and the
artifact is persisted locally. -/
theorem c7_uploader_witness :
    (runUploader 3 fun _ => UploadOutcome.transient).attemptsMade = 3 ∧
      (runUploader 3 fun _ => UploadOutcome.transient).receiptObtained = none ∧
      (runUploader 3 fun _ => UploadOutcome.transient).pendingLocal = true :=
  (c7_uploader 3 fun _ => UploadOutcome.transient).2.2.2 fun _ => rfl

/-- Claim C8: when the inference call fails the Summarizer yields the
deterministic template fallback, which is a total pure function of the
FindingSet factoring through its category counts and severity hints — so a
Summary is always produced and the SUMMARIZING stage cannot stall. -/
theorem c8_summarizer_fallback (fs fs' : List Finding) :
    summarize .failed fs = fallbackSummary fs ∧
    fallbackSummary fs = templateSummary (categoryCounts fs) (severityCounts fs) ∧
    (categoryCounts fs = categoryCounts fs' → severityCounts fs = severityCounts fs' →
      fallbackSummary fs = fallbackSummary fs') := by
  refine ⟨rfl, rfl, fun h1 h2 => ?_⟩
  rw [fallbackSummary, fallbackSummary, h1, h2]

/-- Claim C8 witness: two finding lists with the same category and severity
counts get the same fallback summary, and failed inference yields it. -/
theorem c8_summarizer_fallback_witness :
    fallbackSummary findingsW = fallbackSummary findingsW' :=
  (c8_summarizer_fallback findingsW findingsW').2.2 (by decide) (by decide)

/-- Claim C3: every pipeline run ends in a terminal state (COMPLETE,
ABORTED or FAILED), produces exactly one ReportArtifact, and either an
UploadReceipt was obtained or the artifact sits in local pending storage —
in particular the artifact is never dropped before a receipt exists. -/
theorem c3_terminal_artifact (inp : PipelineInput) :
    ((runPipeline inp).finalState = .COMPLETE ∨ (runPipeline inp).finalState = .ABORTED ∨
      (runPipeline inp).finalState = .FAILED) ∧
    (runPipeline inp).artifacts.length = 1 ∧
    ((runPipeline inp).receiptObtained.isSome = true ∨
      (runPipeline inp).pendingLocal = true) ∧
    ((runPipeline inp).receiptObtained = none → (runPipeline inp).pendingLocal = true) := by
  have hup : (runUploader inp.maxAttempts inp.uploadResp).receiptObtained = none →
      (runUploader inp.maxAttempts inp.uploadResp).pendingLocal = true :=
    uploadGo_pending inp.uploadResp inp.maxAttempts 0
  by_cases hv : ((validateScope inp.inAllowList (scopeEntries inp.req)).all
      fun e => decide (e.verdict = .rejected)) = true
  · refine ⟨?_, ?_, ?_, ?_⟩ <;> simp only [runPipeline, hv, if_true]
    · simp
    · rfl
    · cases hr : (runUploader inp.maxAttempts inp.uploadResp).receiptObtained with
      | some r => left; simp [hr]
      | none => right; exact hup hr
    · intro h
      exact hup h
  · rw [Bool.not_eq_true] at hv
    refine ⟨?_, ?_, ?_, ?_⟩ <;>
      simp only [runPipeline, hv, Bool.false_eq_true, if_false]
    · split
      · exact Or.inr (Or.inl rfl)
      · cases hr : (runUploader inp.maxAttempts inp.uploadResp).receiptObtained with
        | some r => exact Or.inl rfl
        | none => exact Or.inr (Or.inr rfl)
    · rfl
    · cases hr : (runUploader inp.maxAttempts inp.uploadResp).receiptObtained with
      | some r => left; simp [hr]
      | none => right; exact hup hr
    · intro h
      exact hup h

/-- Claim C3 witness: on a concrete run whose uploads all fail
transiently, no receipt exists, so the artifact is in local pending
storage. -/
theorem c3_terminal_artifact_witness :
    (runPipeline inpW).pendingLocal = true :=
  (c3_terminal_artifact inpW).2.2.2 (by decide)

/-- Claim C4: when the Abort flag lands after `k` of the planned targets
completed (and before the plan is exhausted), the run ends ABORTED, its
FindingSet is exactly the findings of those first `k` work items, the one
ReportArtifact is built from exactly those findings (with the fallback
summary), and an upload is still attempted — partial results are never
discarded. -/
theorem c4_abort_checkpoint (inp : PipelineInput) (k : Nat)
    (hset : inp.abortSetAfter = some k)
    (hallow : ((validateScope inp.inAllowList (scopeEntries inp.req)).all
      fun e => decide (e.verdict = .rejected)) = false)
    (hk : k < (plannedItems inp).length)
    (hbudget : 1 ≤ inp.maxAttempts) :
    (runPipeline inp).finalState = .ABORTED ∧
    (runPipeline inp).findings = partialFindings inp k ∧
    (runPipeline inp).artifacts =
      [buildReport (partialFindings inp k) (fallbackSummary (partialFindings inp k))
        inp.req inp.now] ∧
    1 ≤ (runPipeline inp).uploadAttempts := by
  have hsc := scanLoop_flag inp.toolRun k (plannedItems inp) 0 (Nat.zero_le k)
  rw [Nat.sub_zero] at hsc
  rw [decide_eq_true hk] at hsc
  rw [plannedItems] at hsc
  have hpos : 0 + 1 ≤ (uploadGo inp.uploadResp inp.maxAttempts 0).attemptsMade :=
    uploadGo_pos inp.uploadResp inp.maxAttempts 0 hbudget
  refine ⟨?_, ?_, ?_, ?_⟩ <;>
    simp only [runPipeline, hallow, Bool.false_eq_true, if_false, hset, hsc,
      Bool.true_or, if_true, partialFindings, plannedItems, runUploader] <;>
    first
    | rfl
    | omega

/-- Claim C4 witness: on the concrete ten-target run aborted after 3
targets, the run ends ABORTED with an upload still attempted. -/
theorem c4_abort_checkpoint_witness :
    (runPipeline inpAbort).finalState = .ABORTED ∧
      1 ≤ (runPipeline inpAbort).uploadAttempts :=
  ⟨(c4_abort_checkpoint inpAbort 3 rfl (by decide) (by decide) (by decide)).1,
   (c4_abort_checkpoint inpAbort 3 rfl (by decide) (by decide) (by decide)).2.2.2⟩

end YfitgRecon
